import Mathlib

set_option maxHeartbeats 1000000

/-!
# FetchORM — shallow embedding and verification

A shallow embedding of the FetchXML query-builder library: the query model
(`src/types.ts`), the validators (`src/validators/index.ts`), the fluent
builders (`src/entities/base-entity.ts`, `src/builders/join-builder.ts`) and
the XML renderer (`src/builders/xml-builder.ts`), together with theorems about
the behaviour of these definitions.

Modelling conventions:
* TypeScript `number` inputs that the library range-checks are modelled as `Int`.
* A thrown exception is modelled by returning the pre-call state together with
  `some` error (`BaseEntity × Option FetchError`): the pair records the state
  the mutable object holds after the call and the error propagated to the
  caller, mirroring the imperative code step by step (validations run in
  source order, mutations happen exactly where the source mutates).
* JavaScript truthiness tests on optional strings / numbers / booleans are
  modelled by the `jsTruthy*` functions (`undefined`, `""`, `0` and `false`
  are falsy).
* Condition values (`any` in the source) are modelled by `JsVal`, covering
  `undefined`, `null`, integers, strings and booleans, with JavaScript's
  `toString` rendering.
-/

/-- A JavaScript value as stored in a `FilterCondition.value` slot:
`undefined` (absent), `null`, a number (integer case), a string or a boolean. -/
inductive JsVal where
  | undef : JsVal
  | null : JsVal
  | num (n : Int) : JsVal
  | str (s : String) : JsVal
  | bool (b : Bool) : JsVal
deriving DecidableEq

/-- JavaScript `value.toString()` for the modelled values. -/
def JsVal.toText : JsVal → String
  | .undef => "undefined"
  | .null => "null"
  | .num n => toString n
  | .str s => s
  | .bool b => if b then "true" else "false"

/-- JavaScript truthiness of an optional string: `undefined` and `""` are falsy. -/
def jsTruthyStr : Option String → Bool
  | none => false
  | some s => !(s == "")

/-- JavaScript truthiness of an optional number: `undefined` and `0` are falsy. -/
def jsTruthyInt : Option Int → Bool
  | none => false
  | some n => !(n == 0)

/-- JavaScript truthiness of an optional boolean: `undefined` and `false` are falsy. -/
def jsTruthyBool : Option Bool → Bool
  | none => false
  | some b => b

/-!
## XML escaping (`FetchXMLBuilder.escapeXml`)

The source performs five chained global regex replaces, each with a
single-character pattern:

```
value.replace(/&/g,'&amp;').replace(/</g,'&lt;').replace(/>/g,'&gt;')
     .replace(/"/g,'&quot;').replace(/'/g,'&#39;')
```

A global replace whose pattern is one character is exactly a character-wise
substitution, which `replaceChar` performs on the character list of the string.
-/

/-- Global replacement of the single character `c` by the text `rep`. -/
def replaceChar (c : Char) (rep : List Char) : List Char → List Char
  | [] => []
  | x :: xs => (if x = c then rep else [x]) ++ replaceChar c rep xs

/-- Replacement text for `&` : `&amp;`. -/
def ampRep : List Char := ['&', 'a', 'm', 'p', ';']

/-- Replacement text for `<` : `&lt;`. -/
def ltRep : List Char := ['&', 'l', 't', ';']

/-- Replacement text for `>` : `&gt;`. -/
def gtRep : List Char := ['&', 'g', 't', ';']

/-- Replacement text for `"` : `&quot;`. -/
def quotRep : List Char := ['&', 'q', 'u', 'o', 't', ';']

/-- Replacement text for the apostrophe : `&#39;`. -/
def aposRep : List Char := ['&', '#', '3', '9', ';']

/-- `FetchXMLBuilder.escapeXml` on character lists: the five chained
single-character global replaces of the source, in source order
(`&` first, then `<`, `>`, `"`, the apostrophe). -/
def escapeXmlChars (value : List Char) : List Char :=
  replaceChar '\'' aposRep
    (replaceChar '"' quotRep
      (replaceChar '>' gtRep
        (replaceChar '<' ltRep
          (replaceChar '&' ampRep value))))

/-- `FetchXMLBuilder.escapeXml` on strings. -/
def escapeXml (value : String) : String :=
  String.mk (escapeXmlChars value.data)

/-- JavaScript `String.prototype.trim` on character lists: drop leading and
trailing whitespace (modelled with `Char.isWhitespace`, which covers the
space, tab, line-feed and carriage-return characters). -/
def trimChars (l : List Char) : List Char :=
  ((l.dropWhile Char.isWhitespace).reverse.dropWhile Char.isWhitespace).reverse

/-- JavaScript `String.prototype.trim`. -/
def jsTrim (s : String) : String :=
  String.mk (trimChars s.data)

/-!
## Errors (`src/errors/index.ts`)
-/

/-- The library's error taxonomy: `ValidationError(message, field)`,
`QueryBuildError(message)` and `AttributeError(message, attribute)`,
all extending `FetchXMLError`. -/
inductive FetchError where
  | validationError (message : String) (field : String) : FetchError
  | queryBuildError (message : String) : FetchError
  | attributeError (message : String) (attribute_ : String) : FetchError
deriving DecidableEq

deriving instance DecidableEq for Except

/-!
## Validator (`src/validators/index.ts`)
-/

/-- `Validator.MIN_PAGE_SIZE` (also `MIN_TOP_SIZE`). -/
def Validator.MIN_SIZE : Int := 1

/-- `Validator.MAX_PAGE_SIZE` (also `MAX_TOP_SIZE`). -/
def Validator.MAX_SIZE : Int := 5000

/-- The fixed operator list of `Validator.validateFilterOperator`. -/
def Validator.validOperators : List String :=
  ["eq", "ne", "gt", "ge", "lt", "le", "like", "not-like",
   "in", "not-in", "null", "not-null", "on", "on-or-before",
   "on-or-after", "yesterday", "today", "tomorrow",
   "last-seven-days", "next-seven-days", "last-week",
   "this-week", "next-week", "last-month", "this-month",
   "next-month", "last-year", "this-year", "next-year"]

/-- `Validator.validateFilterOperator`: membership in the fixed operator list;
returns the operator unchanged on success. -/
def Validator.validateFilterOperator (operator : String) : Except FetchError String :=
  if ¬ (Validator.validOperators.contains operator) then
    .error (.validationError ("Invalid filter operator: " ++ operator) "operator")
  else
    .ok operator

/-- `Validator.validateOrderType`: membership in `['asc', 'desc']`. -/
def Validator.validateOrderType (order : String) : Except FetchError String :=
  if ¬ (["asc", "desc"].contains order) then
    .error (.validationError ("Invalid order type: " ++ order) "order")
  else
    .ok order

/-- `Validator.validateAggregateType`: membership in the fixed aggregate list. -/
def Validator.validateAggregateType (aggregate : String) : Except FetchError String :=
  if ¬ (["count", "countcolumn", "sum", "avg", "min", "max"].contains aggregate) then
    .error (.validationError ("Invalid aggregate type: " ++ aggregate) "aggregate")
  else
    .ok aggregate

/-- `Validator.validateAttributeName`: fails when the name is falsy (empty) or
whitespace-only (`trim` empty); the `typeof` guard always passes for strings. -/
def Validator.validateAttributeName (attribute_ : String) : Except FetchError Unit :=
  if attribute_ = "" ∨ jsTrim attribute_ = "" then
    .error (.validationError "Attribute name cannot be empty" "attribute")
  else
    .ok ()

/-- `Validator.validateEntityName`: the same rule with the `entityName` field tag. -/
def Validator.validateEntityName (entityName : String) : Except FetchError Unit :=
  if entityName = "" ∨ jsTrim entityName = "" then
    .error (.validationError "Entity name cannot be empty" "entityName")
  else
    .ok ()

/-- `Validator.validatePagination`: `page < 1` fails with field `page`, then
`count` outside `[1, 5000]` fails with field `count`. -/
def Validator.validatePagination (page count : Int) : Except FetchError Unit :=
  if page < Validator.MIN_SIZE then
    .error (.validationError "Page number must be greater than 1" "page")
  else if count < Validator.MIN_SIZE ∨ count > Validator.MAX_SIZE then
    .error (.validationError "Page count must be between 1 and 5000" "count")
  else
    .ok ()

/-- `Validator.validateTop`: `top` outside `[1, 5000]` fails. -/
def Validator.validateTop (top : Int) : Except FetchError Unit :=
  if top < Validator.MIN_SIZE ∨ top > Validator.MAX_SIZE then
    .error (.validationError "Top value must be between 1 and 5000" "top")
  else
    .ok ()

/-!
## Query model (`src/types.ts`)
-/

/-- `Attribute` / `AggregateAttribute`: `aggregate = none` models the plain
`Attribute` shape (no `aggregate` key present), `aggregate = some a` models
`AggregateAttribute` (the renderer tests `'aggregate' in attr`). -/
structure Attribute where
  name : String
  alias_ : Option String
  aggregate : Option String
deriving DecidableEq

/-- `FilterCondition`: `value = JsVal.undef` models an absent `value` key. -/
structure FilterCondition where
  attribute_ : String
  operator : String
  value : JsVal
deriving DecidableEq

/-- The filter tree: the source's `FilterCondition | FilterGroup` union
(discriminated by the presence of a `type` key) as a tagged tree.
`group type conditions` is a `FilterGroup`. -/
inductive FilterNode where
  | cond (c : FilterCondition) : FilterNode
  | group (type : String) (conditions : List FilterNode) : FilterNode

/-- `OrderBy`. -/
structure OrderBy where
  attribute_ : String
  order : String
deriving DecidableEq

/-- `LinkEntity` (recursive through `links`, hence an inductive).
`from_` models the source's `from` field (a Lean keyword). -/
inductive LinkEntity where
  | mk (name : String) (from_ : String) (to_ : String)
      (alias_ : Option String) (linkType : Option String)
      (attributes : List Attribute)
      (filters : Option FilterNode)
      (links : Option (List LinkEntity)) : LinkEntity

/-- Projection: `LinkEntity.name`. -/
def LinkEntity.name : LinkEntity → String
  | .mk n _ _ _ _ _ _ _ => n

/-- Projection: `LinkEntity.from`. -/
def LinkEntity.from_ : LinkEntity → String
  | .mk _ f _ _ _ _ _ _ => f

/-- Projection: `LinkEntity.to`. -/
def LinkEntity.to_ : LinkEntity → String
  | .mk _ _ t _ _ _ _ _ => t

/-- Projection: `LinkEntity.alias`. -/
def LinkEntity.alias_ : LinkEntity → Option String
  | .mk _ _ _ a _ _ _ _ => a

/-- Projection: `LinkEntity.linkType`. -/
def LinkEntity.linkType : LinkEntity → Option String
  | .mk _ _ _ _ lt _ _ _ => lt

/-- Projection: `LinkEntity.attributes`. -/
def LinkEntity.attributes : LinkEntity → List Attribute
  | .mk _ _ _ _ _ attrs _ _ => attrs

/-- Projection: `LinkEntity.filters`. -/
def LinkEntity.filters : LinkEntity → Option FilterNode
  | .mk _ _ _ _ _ _ f _ => f

/-- Projection: `LinkEntity.links`. -/
def LinkEntity.links : LinkEntity → Option (List LinkEntity)
  | .mk _ _ _ _ _ _ _ ls => ls

/-- Replace the `attributes` and `filters` fields of a link, leaving the
other six fields unchanged (the only fields a Join Builder ever mutates). -/
def LinkEntity.withAttrsFilters : LinkEntity → List Attribute → Option FilterNode → LinkEntity
  | .mk n f t a lt _ _ ls, attrs, filters => .mk n f t a lt attrs filters ls

/-- `FetchQuery`: the root query model. Absent optional keys are `none`. -/
structure FetchQuery where
  entity : String
  attributes : List Attribute
  filters : Option FilterNode
  orders : Option (List OrderBy)
  links : Option (List LinkEntity)
  distinct : Option Bool
  top : Option Int
  page : Option Int
  count : Option Int

/-!
## XML renderer (`src/builders/xml-builder.ts`)

`FetchXMLBuilder.build` and its helpers. The source wraps the walk in
`try/catch` re-throwing a `QueryBuildError`; every step of the walk is total
(string concatenation and `escapeXml` cannot throw), so the model is a total
function to `String`. Inline `for` loops become the list recursions below.
-/

/-- One `<attribute/>` element, as emitted both by `buildAttributes` and by the
identical inline loop of `buildLinkEntity`: `name` escaped; `alias` emitted
only when truthy (escaped); `aggregate` emitted when the key is present. -/
def buildAttribute1 (attr : Attribute) : String :=
  "<attribute" ++ " name=\"" ++ escapeXml attr.name ++ "\"" ++
  (if jsTruthyStr attr.alias_ then " alias=\"" ++ escapeXml (attr.alias_.getD "") ++ "\"" else "") ++
  (match attr.aggregate with
   | some a => " aggregate=\"" ++ a ++ "\""
   | none => "") ++
  "/>"

/-- `FetchXMLBuilder.buildAttributes`: the attribute loop, in list order. -/
def buildAttributes : List Attribute → String
  | [] => ""
  | attr :: rest => buildAttribute1 attr ++ buildAttributes rest

/-- `FetchXMLBuilder.buildCondition`: attribute escaped, operator verbatim,
`value` emitted exactly when it is neither `undefined` nor `null`
(stringified then escaped). -/
def buildCondition (condition : FilterCondition) : String :=
  "<condition" ++ " attribute=\"" ++ escapeXml condition.attribute_ ++ "\"" ++
  " operator=\"" ++ condition.operator ++ "\"" ++
  (if condition.value ≠ JsVal.undef ∧ condition.value ≠ JsVal.null then
    " value=\"" ++ escapeXml condition.value.toText ++ "\""
  else "") ++
  "/>"

mutual

/-- `FetchXMLBuilder.buildFilter`: a `<filter>` wrapper around the entries;
each entry with a `type` key recurses, a plain condition renders as a leaf. -/
def buildFilter : FilterNode → String
  | .group type conditions =>
      "<filter type=\"" ++ type ++ "\">" ++ buildFilterEntries conditions ++ "</filter>"
  | .cond c => buildCondition c

/-- The entry loop of `buildFilter`, in list order. -/
def buildFilterEntries : List FilterNode → String
  | [] => ""
  | e :: rest => buildFilter e ++ buildFilterEntries rest

end

/-- One `<order/>` element: attribute escaped,
`descending` is the JS boolean text of `order === 'desc'`. -/
def buildOrder1 (order : OrderBy) : String :=
  "<order attribute=\"" ++ escapeXml order.attribute_ ++ "\" descending=\"" ++
  (if order.order = "desc" then "true" else "false") ++ "\"/>"

/-- `FetchXMLBuilder.buildOrders`: the order loop, in list order. -/
def buildOrders : List OrderBy → String
  | [] => ""
  | o :: rest => buildOrder1 o ++ buildOrders rest

mutual

/-- `FetchXMLBuilder.buildLinkEntity`: header attributes (name/from/to escaped;
alias when truthy, escaped; link-type when truthy, verbatim), then the link's
own attributes, then its filter tree when present, then each nested link,
then the closing tag. -/
def buildLinkEntity : LinkEntity → String
  | .mk name from_ to_ alias_ linkType attributes filters links =>
      "<link-entity" ++ " name=\"" ++ escapeXml name ++ "\"" ++
      " from=\"" ++ escapeXml from_ ++ "\"" ++
      " to=\"" ++ escapeXml to_ ++ "\"" ++
      (if jsTruthyStr alias_ then " alias=\"" ++ escapeXml (alias_.getD "") ++ "\"" else "") ++
      (if jsTruthyStr linkType then " link-type=\"" ++ linkType.getD "" ++ "\"" else "") ++
      ">" ++
      buildAttributes attributes ++
      (match filters with
       | some f => buildFilter f
       | none => "") ++
      (match links with
       | some ls => buildLinkList ls
       | none => "") ++
      "</link-entity>"

/-- `FetchXMLBuilder.buildLinks`: the link loop, in list order. -/
def buildLinkList : List LinkEntity → String
  | [] => ""
  | l :: rest => buildLinkEntity l ++ buildLinkList rest

end

/-- `FetchXMLBuilder.build`: the `<fetch>` header (`distinct`, `top`, `page`,
`count`, each emitted when truthy), the `<entity>` element whose `name` is the
query's entity string inserted verbatim (the source does not call `escapeXml`
here), the attributes, the filter tree, the orders and the links, then the
closing tags. -/
def FetchXMLBuilder.build (query : FetchQuery) : String :=
  "<fetch" ++
  (if jsTruthyBool query.distinct then " distinct=\"true\"" else "") ++
  (if jsTruthyInt query.top then " top=\"" ++ toString (query.top.getD 0) ++ "\"" else "") ++
  (if jsTruthyInt query.page then " page=\"" ++ toString (query.page.getD 0) ++ "\"" else "") ++
  (if jsTruthyInt query.count then " count=\"" ++ toString (query.count.getD 0) ++ "\"" else "") ++
  ">" ++
  "<entity name=\"" ++ query.entity ++ "\">" ++
  buildAttributes query.attributes ++
  (match query.filters with
   | some f => buildFilter f
   | none => "") ++
  (match query.orders with
   | some os => buildOrders os
   | none => "") ++
  (match query.links with
   | some ls => buildLinkList ls
   | none => "") ++
  "</entity>" ++ "</fetch>"

/-!
## Entity builder (`src/entities/base-entity.ts`)

`BaseEntity` is an abstract class: the `entityName` field is supplied by the
concrete subclass, while the constructor argument becomes `query.entity`.
Every fluent method is modelled as a function from the builder state to
`BaseEntity × Option FetchError`: the state the object holds after the call
(the source validates before it mutates, so a throwing call returns the
pre-call state) and the error propagated to the caller, if any. The
`try/catch` blocks of the source only log and re-throw, so they do not
change either component.
-/

/-- The state of a `BaseEntity` object: the subclass-provided `entityName`
field and the query model owned by the builder. -/
structure BaseEntity where
  entityName : String
  query : FetchQuery

/-- The `BaseEntity` constructor: stores the constructor argument as
`query.entity` (with an empty attribute list and no optional keys), performing
no validation. `subclassEntityName` is the value the concrete subclass gives
the abstract `entityName` field. -/
def BaseEntity.init (entityName subclassEntityName : String) : BaseEntity :=
  { entityName := subclassEntityName
    query :=
      { entity := entityName
        attributes := []
        filters := none
        orders := none
        links := none
        distinct := none
        top := none
        page := none
        count := none } }

/-- The `attributes.map(...)` body shared by `select` (entity and join
builders): validate each name in order, stopping at the first failure; on
success produce the `{ name }` attribute records in call order. -/
def mapSelect : List String → Except FetchError (List Attribute)
  | [] => .ok []
  | attr :: rest =>
    match Validator.validateAttributeName attr with
    | .error e => .error e
    | .ok _ =>
      match mapSelect rest with
      | .error e => .error e
      | .ok attrs => .ok ({ name := attr, alias_ := none, aggregate := none } :: attrs)

/-- `BaseEntity.select`: validate all names (inside `map`, before any
mutation), then append the new attributes to the query's attribute list. -/
def BaseEntity.select (st : BaseEntity) (attributes : List String) :
    BaseEntity × Option FetchError :=
  match mapSelect attributes with
  | .error e => (st, some e)
  | .ok newAttributes =>
    ({ st with query := { st.query with attributes := st.query.attributes ++ newAttributes } },
     none)

/-- `BaseEntity.selectAs`: validate the name and the alias, then append. -/
def BaseEntity.selectAs (st : BaseEntity) (attribute_ alias_ : String) :
    BaseEntity × Option FetchError :=
  match Validator.validateAttributeName attribute_ with
  | .error e => (st, some e)
  | .ok _ =>
    match Validator.validateAttributeName alias_ with
    | .error e => (st, some e)
    | .ok _ =>
      ({ st with query :=
          { st.query with attributes :=
              st.query.attributes ++ [{ name := attribute_, alias_ := some alias_, aggregate := none }] } },
       none)

/-- `BaseEntity.addAggregate`: validate the aggregate type; default the
attribute name to `entityName + 'id'` when the argument is falsy (absent or
empty), validating the name only when the argument is truthy; append an
`AggregateAttribute`. -/
def BaseEntity.addAggregate (st : BaseEntity) (aggregate : String)
    (attribute_ : Option String) (alias_ : Option String) :
    BaseEntity × Option FetchError :=
  match Validator.validateAggregateType aggregate with
  | .error e => (st, some e)
  | .ok validAggregate =>
    let attributeName :=
      if jsTruthyStr attribute_ then attribute_.getD "" else st.entityName ++ "id"
    match (if jsTruthyStr attribute_ then Validator.validateAttributeName attributeName
           else .ok ()) with
    | .error e => (st, some e)
    | .ok _ =>
      ({ st with query :=
          { st.query with attributes :=
              st.query.attributes ++ [{ name := attributeName, alias_ := alias_, aggregate := some validAggregate }] } },
       none)

/-- `BaseEntity.count` (optional attribute argument). -/
def BaseEntity.count (st : BaseEntity) (attribute_ alias_ : Option String) :
    BaseEntity × Option FetchError :=
  st.addAggregate "count" attribute_ alias_

/-- `BaseEntity.sum` (the attribute argument is required by the TypeScript
signature but may still be the empty string at runtime). -/
def BaseEntity.sum (st : BaseEntity) (attribute_ : String) (alias_ : Option String) :
    BaseEntity × Option FetchError :=
  st.addAggregate "sum" (some attribute_) alias_

/-- `BaseEntity.avg`. -/
def BaseEntity.avg (st : BaseEntity) (attribute_ : String) (alias_ : Option String) :
    BaseEntity × Option FetchError :=
  st.addAggregate "avg" (some attribute_) alias_

/-- `BaseEntity.min`. -/
def BaseEntity.min (st : BaseEntity) (attribute_ : String) (alias_ : Option String) :
    BaseEntity × Option FetchError :=
  st.addAggregate "min" (some attribute_) alias_

/-- `BaseEntity.max`. -/
def BaseEntity.max (st : BaseEntity) (attribute_ : String) (alias_ : Option String) :
    BaseEntity × Option FetchError :=
  st.addAggregate "max" (some attribute_) alias_

/-- Append a condition to a filter group (`filters.conditions.push(condition)`).
The builder only ever stores `group` nodes in the `filters` slot; on the
(builder-unreachable) `cond` shape the model is the identity. -/
def pushCondition (f : FilterNode) (c : FilterCondition) : FilterNode :=
  match f with
  | .group type conditions => .group type (conditions ++ [.cond c])
  | other => other

/-- `BaseEntity.where`: validate the attribute name, then the operator;
lazily initialise the filter tree to an empty top-level `and` group; append
the condition (the validated operator is the input operator unchanged). -/
def BaseEntity.where_ (st : BaseEntity) (attribute_ operator : String) (value : JsVal) :
    BaseEntity × Option FetchError :=
  match Validator.validateAttributeName attribute_ with
  | .error e => (st, some e)
  | .ok _ =>
    match Validator.validateFilterOperator operator with
    | .error e => (st, some e)
    | .ok validOperator =>
      let filters0 := st.query.filters.getD (FilterNode.group "and" [])
      let filters1 := pushCondition filters0
        { attribute_ := attribute_, operator := validOperator, value := value }
      ({ st with query := { st.query with filters := some filters1 } }, none)

/-- `BaseEntity.orderBy`: validate the attribute name and the order type;
lazily initialise the orders list; append. -/
def BaseEntity.orderBy (st : BaseEntity) (attribute_ order : String) :
    BaseEntity × Option FetchError :=
  match Validator.validateAttributeName attribute_ with
  | .error e => (st, some e)
  | .ok _ =>
    match Validator.validateOrderType order with
    | .error e => (st, some e)
    | .ok validOrder =>
      let newOrders := st.query.orders.getD [] ++ [{ attribute_ := attribute_, order := validOrder }]
      ({ st with query := { st.query with orders := some newOrders } }, none)

/-- `BaseEntity.top`: validate the range, then set the scalar field. -/
def BaseEntity.top (st : BaseEntity) (count : Int) : BaseEntity × Option FetchError :=
  match Validator.validateTop count with
  | .error e => (st, some e)
  | .ok _ => ({ st with query := { st.query with top := some count } }, none)

/-- `BaseEntity.page`: validate, then set both `page` and `count`. -/
def BaseEntity.page (st : BaseEntity) (pageNumber pageSize : Int) :
    BaseEntity × Option FetchError :=
  match Validator.validatePagination pageNumber pageSize with
  | .error e => (st, some e)
  | .ok _ =>
    ({ st with query := { st.query with page := some pageNumber, count := some pageSize } },
     none)

/-- `BaseEntity.page` invoked with the `pageSize` parameter defaulted (50). -/
def BaseEntity.pageDefault (st : BaseEntity) (pageNumber : Int) :
    BaseEntity × Option FetchError :=
  st.page pageNumber 50

/-- `BaseEntity.distinct`: set the flag unconditionally; never fails. -/
def BaseEntity.distinct (st : BaseEntity) : BaseEntity × Option FetchError :=
  ({ st with query := { st.query with distinct := some true } }, none)

/-- `BaseEntity.groupBy`: validate the attribute name and do nothing else. -/
def BaseEntity.groupBy (st : BaseEntity) (attribute_ : String) :
    BaseEntity × Option FetchError :=
  match Validator.validateAttributeName attribute_ with
  | .error e => (st, some e)
  | .ok _ => (st, none)

/-- `BaseEntity.join`: validate the entity name and both key attribute names;
construct the `LinkEntity` with empty attributes and append it to the lazily
initialised links list. (The returned `JoinBuilder` aliases the appended link
node, which sits at the final index of the links list.) -/
def BaseEntity.join (st : BaseEntity) (entityName fromAttribute toAttribute : String)
    (alias_ linkType : Option String) : BaseEntity × Option FetchError :=
  match Validator.validateEntityName entityName with
  | .error e => (st, some e)
  | .ok _ =>
    match Validator.validateAttributeName fromAttribute with
    | .error e => (st, some e)
    | .ok _ =>
      match Validator.validateAttributeName toAttribute with
      | .error e => (st, some e)
      | .ok _ =>
        let link := LinkEntity.mk entityName fromAttribute toAttribute alias_ linkType [] none none
        ({ st with query := { st.query with links := some (st.query.links.getD [] ++ [link]) } },
         none)

/-- `BaseEntity.build`: construct the renderer over the current model and run
it (the renderer is total, so the `try/catch` re-wrap never fires). -/
def BaseEntity.build (st : BaseEntity) : String :=
  FetchXMLBuilder.build st.query

/-!
## Join builder (`src/builders/join-builder.ts`)

A `JoinBuilder` mutates the `LinkEntity` node it aliases; its operations are
modelled on the link value directly.
-/

/-- `JoinBuilder.select`: validate all names inside `map`, then append to the
link's attribute list. -/
def JoinBuilder.select (link : LinkEntity) (attributes : List String) :
    LinkEntity × Option FetchError :=
  match mapSelect attributes with
  | .error e => (link, some e)
  | .ok newAttributes =>
    (link.withAttrsFilters (link.attributes ++ newAttributes) link.filters, none)

/-- `JoinBuilder.selectAs`: validate the name and the alias, then append. -/
def JoinBuilder.selectAs (link : LinkEntity) (attribute_ alias_ : String) :
    LinkEntity × Option FetchError :=
  match Validator.validateAttributeName attribute_ with
  | .error e => (link, some e)
  | .ok _ =>
    match Validator.validateAttributeName alias_ with
    | .error e => (link, some e)
    | .ok _ =>
      (link.withAttrsFilters
        (link.attributes ++ [{ name := attribute_, alias_ := some alias_, aggregate := none }])
        link.filters, none)

/-- `JoinBuilder.where`: validate, lazily initialise the link's filter tree to
an `and` group, append the condition. -/
def JoinBuilder.where_ (link : LinkEntity) (attribute_ operator : String) (value : JsVal) :
    LinkEntity × Option FetchError :=
  match Validator.validateAttributeName attribute_ with
  | .error e => (link, some e)
  | .ok _ =>
    match Validator.validateFilterOperator operator with
    | .error e => (link, some e)
    | .ok validOperator =>
      (link.withAttrsFilters link.attributes
        (some (pushCondition (link.filters.getD (FilterNode.group "and" []))
          { attribute_ := attribute_, operator := validOperator, value := value })),
       none)

/-!
## Reference XML unescaper (specification side)

`xmlUnescape` is the reference unescaper the specification's round-trip
property quantifies over: it rewrites the five XML character entities
`&amp;` `&lt;` `&gt;` `&quot;` `&#39;` back to their characters and leaves
every other character in place. It is a specification-side definition, not a
translation of repository code (the library has no deserializer).
-/

/-- Reference XML unescaper on character lists. -/
def xmlUnescape : List Char → List Char
  | [] => []
  | c :: rest =>
    if c = '&' then
      match rest with
      | 'a' :: 'm' :: 'p' :: ';' :: r => '&' :: xmlUnescape r
      | 'l' :: 't' :: ';' :: r => '<' :: xmlUnescape r
      | 'g' :: 't' :: ';' :: r => '>' :: xmlUnescape r
      | 'q' :: 'u' :: 'o' :: 't' :: ';' :: r => '"' :: xmlUnescape r
      | '#' :: '3' :: '9' :: ';' :: r => '\'' :: xmlUnescape r
      | r => '&' :: xmlUnescape r
    else
      c :: xmlUnescape rest

/-- Reference XML unescaper on strings. -/
def xmlUnescapeStr (s : String) : String :=
  String.mk (xmlUnescape s.data)

/-- The per-character substitution that the five chained replaces of
`escapeXml` amount to (proved as `escapeXmlChars_eq_bind`). -/
def escCh (c : Char) : List Char :=
  if c = '&' then ampRep
  else if c = '<' then ltRep
  else if c = '>' then gtRep
  else if c = '"' then quotRep
  else if c = '\'' then aposRep
  else [c]

/-!
## Join Builder call sequences

To speak about the order in which attributes and filter conditions are added
to one link relative to each other, a call sequence on a Join Builder is
reified as a list of `JoinOp` values, applied in order by `applyJoinOps`.
-/

/-- One fluent call on a Join Builder. -/
inductive JoinOp where
  | select (attributes : List String) : JoinOp
  | selectAs (attribute_ alias_ : String) : JoinOp
  | whereC (attribute_ operator : String) (value : JsVal) : JoinOp

/-- Is the call an attribute-adding call (`select` / `selectAs`)? The only
other call is `where`, which adds to the filter tree. -/
def JoinOp.isAttrOp : JoinOp → Bool
  | .select _ => true
  | .selectAs _ _ => true
  | .whereC _ _ _ => false

/-- Apply one Join Builder call to the link it is bound to (the state the
mutable link node holds after the call, whether or not the call threw). -/
def applyJoinOp (link : LinkEntity) : JoinOp → LinkEntity
  | .select attrs => (JoinBuilder.select link attrs).1
  | .selectAs a al => (JoinBuilder.selectAs link a al).1
  | .whereC a op v => (JoinBuilder.where_ link a op v).1

/-- Apply a Join Builder call sequence in order. -/
def applyJoinOps (link : LinkEntity) (ops : List JoinOp) : LinkEntity :=
  ops.foldl applyJoinOp link

/-- The effect of one call on the link's attribute list (`where` leaves it
unchanged; a failing call leaves it unchanged). -/
def attrEffect (attrs : List Attribute) : JoinOp → List Attribute
  | .select names =>
    match mapSelect names with
    | .error _ => attrs
    | .ok newAttributes => attrs ++ newAttributes
  | .selectAs a al =>
    match Validator.validateAttributeName a with
    | .error _ => attrs
    | .ok _ =>
      match Validator.validateAttributeName al with
      | .error _ => attrs
      | .ok _ => attrs ++ [{ name := a, alias_ := some al, aggregate := none }]
  | .whereC _ _ _ => attrs

/-- The effect of one call on the link's filter tree (`select` / `selectAs`
leave it unchanged; a failing call leaves it unchanged). -/
def filterEffect (filters : Option FilterNode) : JoinOp → Option FilterNode
  | .select _ => filters
  | .selectAs _ _ => filters
  | .whereC a op v =>
    match Validator.validateAttributeName a with
    | .error _ => filters
    | .ok _ =>
      match Validator.validateFilterOperator op with
      | .error _ => filters
      | .ok validOperator =>
        some (pushCondition (filters.getD (FilterNode.group "and" []))
          { attribute_ := a, operator := validOperator, value := v })

/-- The attribute list after a call sequence. -/
def applyAttrOps (attrs : List Attribute) (ops : List JoinOp) : List Attribute :=
  ops.foldl attrEffect attrs

/-- The filter tree after a call sequence. -/
def applyFilterOps (filters : Option FilterNode) (ops : List JoinOp) : Option FilterNode :=
  ops.foldl filterEffect filters

/-- The fixed opening tag of a rendered link (name/from/to, optional alias and
link-type), as `buildLinkEntity` emits it. -/
def linkOpenTag (link : LinkEntity) : String :=
  "<link-entity" ++ " name=\"" ++ escapeXml link.name ++ "\"" ++
  " from=\"" ++ escapeXml link.from_ ++ "\"" ++
  " to=\"" ++ escapeXml link.to_ ++ "\"" ++
  (if jsTruthyStr link.alias_ then " alias=\"" ++ escapeXml (link.alias_.getD "") ++ "\"" else "") ++
  (if jsTruthyStr link.linkType then " link-type=\"" ++ link.linkType.getD "" ++ "\"" else "") ++
  ">"

/-- The rendered filter section of a link (empty when no filter tree). -/
def optFilterXml : Option FilterNode → String
  | some f => buildFilter f
  | none => ""

/-- The rendered nested-link section of a link (empty when no nested links). -/
def optLinksXml : Option (List LinkEntity) → String
  | some ls => buildLinkList ls
  | none => ""

/-!
## Lemmas about escaping
-/

/-- A single-character global replace distributes over concatenation. -/
theorem replaceChar_append (c : Char) (rep : List Char) (a b : List Char) :
    replaceChar c rep (a ++ b) = replaceChar c rep a ++ replaceChar c rep b := by
  induction a with
  | nil => simp [replaceChar]
  | cons x xs ih => simp [replaceChar, ih, List.append_assoc]

/-- Unfolding the head of the chained replaces. -/
theorem escapeXmlChars_head (x : Char) (xs : List Char) :
    escapeXmlChars (x :: xs) =
      replaceChar '\'' aposRep (replaceChar '"' quotRep (replaceChar '>' gtRep
        (replaceChar '<' ltRep (if x = '&' then ampRep else [x])))) ++
      escapeXmlChars xs := by
  simp only [escapeXmlChars, replaceChar, replaceChar_append]

/-- The chained replaces act character-wise as `escCh`: the replacement texts
introduced by an earlier replace contain none of the characters a later
replace looks for. -/
theorem escapeXmlChars_cons (x : Char) (xs : List Char) :
    escapeXmlChars (x :: xs) = escCh x ++ escapeXmlChars xs := by
  rw [escapeXmlChars_head]
  by_cases h1 : x = '&'
  · subst h1; rfl
  by_cases h2 : x = '<'
  · subst h2; simp [escCh, h1]; rfl
  by_cases h3 : x = '>'
  · subst h3; simp [escCh, h1, h2]; rfl
  by_cases h4 : x = '"'
  · subst h4; simp [escCh, h1, h2, h3]; rfl
  by_cases h5 : x = '\''
  · subst h5; simp [escCh, h1, h2, h3, h4]; rfl
  · simp [escCh, replaceChar, h1, h2, h3, h4, h5]

/-- The unescaper passes a non-`&` head through unchanged. -/
theorem xmlUnescape_nonamp (c : Char) (h : ¬ c = '&') (rest : List Char) :
    xmlUnescape (c :: rest) = c :: xmlUnescape rest := by
  rw [xmlUnescape.eq_def]
  simp only [if_neg h]

/-- The unescaper rewrites a leading `&amp;` to `&`. -/
theorem xmlUnescape_amp (r : List Char) :
    xmlUnescape ('&' :: 'a' :: 'm' :: 'p' :: ';' :: r) = '&' :: xmlUnescape r := by
  rw [xmlUnescape.eq_def]
  rfl

/-- The unescaper rewrites a leading `&lt;` to `<`. -/
theorem xmlUnescape_lt (r : List Char) :
    xmlUnescape ('&' :: 'l' :: 't' :: ';' :: r) = '<' :: xmlUnescape r := by
  rw [xmlUnescape.eq_def]
  rfl

/-- The unescaper rewrites a leading `&gt;` to `>`. -/
theorem xmlUnescape_gt (r : List Char) :
    xmlUnescape ('&' :: 'g' :: 't' :: ';' :: r) = '>' :: xmlUnescape r := by
  rw [xmlUnescape.eq_def]
  rfl

/-- The unescaper rewrites a leading `&quot;` to `"`. -/
theorem xmlUnescape_quot (r : List Char) :
    xmlUnescape ('&' :: 'q' :: 'u' :: 'o' :: 't' :: ';' :: r) = '"' :: xmlUnescape r := by
  rw [xmlUnescape.eq_def]
  rfl

/-- The unescaper rewrites a leading `&#39;` to the apostrophe. -/
theorem xmlUnescape_apos (r : List Char) :
    xmlUnescape ('&' :: '#' :: '3' :: '9' :: ';' :: r) = '\'' :: xmlUnescape r := by
  rw [xmlUnescape.eq_def]
  rfl

/-- Unescaping one escaped character prepended to a tail recovers the
character. -/
theorem xmlUnescape_escCh (c : Char) (r : List Char) :
    xmlUnescape (escCh c ++ r) = c :: xmlUnescape r := by
  by_cases h1 : c = '&'
  · subst h1
    show xmlUnescape ('&' :: 'a' :: 'm' :: 'p' :: ';' :: r) = _
    exact xmlUnescape_amp r
  by_cases h2 : c = '<'
  · subst h2
    show xmlUnescape ('&' :: 'l' :: 't' :: ';' :: r) = _
    exact xmlUnescape_lt r
  by_cases h3 : c = '>'
  · subst h3
    show xmlUnescape ('&' :: 'g' :: 't' :: ';' :: r) = _
    exact xmlUnescape_gt r
  by_cases h4 : c = '"'
  · subst h4
    show xmlUnescape ('&' :: 'q' :: 'u' :: 'o' :: 't' :: ';' :: r) = _
    exact xmlUnescape_quot r
  by_cases h5 : c = '\''
  · subst h5
    show xmlUnescape ('&' :: '#' :: '3' :: '9' :: ';' :: r) = _
    exact xmlUnescape_apos r
  · have he : escCh c = [c] := by simp [escCh, h1, h2, h3, h4, h5]
    rw [he]
    exact xmlUnescape_nonamp c h1 r

/-- Unescaping the escape of any character list is the identity. -/
theorem xmlUnescape_escapeXmlChars (l : List Char) :
    xmlUnescape (escapeXmlChars l) = l := by
  induction l with
  | nil => rfl
  | cons x xs ih => rw [escapeXmlChars_cons, xmlUnescape_escCh, ih]

/-- **C6.** Escape/unescape round-trip: for every input string (in particular
any combination of the characters `& < > " '`), applying the reference XML
unescaper to the output of the renderer's escaping function yields the
original string exactly. -/
theorem escapeXml_roundtrip (s : String) : xmlUnescapeStr (escapeXml s) = s := by
  cases s with
  | mk data =>
    show String.mk (xmlUnescape (escapeXmlChars data)) = String.mk data
    rw [xmlUnescape_escapeXmlChars]

/-!
## Lemmas about the renderer and the builder
-/

/-- Rendering the query of a freshly constructed builder: the empty fetch
document, with the constructor's entity string inserted verbatim. -/
theorem build_init (entityName subclassEntityName : String) :
    BaseEntity.build (BaseEntity.init entityName subclassEntityName) =
      "<fetch><entity name=\"" ++ entityName ++ "\"></entity></fetch>" := by
  simp only [BaseEntity.build, BaseEntity.init, FetchXMLBuilder.build, String.append_assoc]
  rfl

/-- **C9.** Constructing an entity builder never validates the bound entity
name: for every string (the empty and whitespace-only strings included)
construction succeeds — `BaseEntity.init` is total and stores the string as
`query.entity` — and a subsequent `build` renders that string verbatim inside
`<entity name="...">`. -/
theorem init_never_validates (entityName subclassEntityName : String) :
    (BaseEntity.init entityName subclassEntityName).query.entity = entityName ∧
    BaseEntity.build (BaseEntity.init entityName subclassEntityName) =
      "<fetch><entity name=\"" ++ entityName ++ "\"></entity></fetch>" :=
  ⟨rfl, build_init entityName subclassEntityName⟩

/-- **C3.** A rendered `<condition/>` element carries a `value` attribute
exactly when the condition's value is neither absent (`undefined`) nor
`null`; any other value (including `0`) renders its stringified form.
Concretely, `where('statecode','eq',0)` renders `value="0"`. -/
theorem condition_value_emission :
    (∀ condition : FilterCondition,
        condition.value = JsVal.undef ∨ condition.value = JsVal.null →
        buildCondition condition =
          "<condition attribute=\"" ++ escapeXml condition.attribute_ ++
          "\" operator=\"" ++ condition.operator ++ "\"/>") ∧
    (∀ condition : FilterCondition,
        condition.value ≠ JsVal.undef → condition.value ≠ JsVal.null →
        buildCondition condition =
          "<condition attribute=\"" ++ escapeXml condition.attribute_ ++
          "\" operator=\"" ++ condition.operator ++
          "\" value=\"" ++ escapeXml condition.value.toText ++ "\"/>") ∧
    BaseEntity.build
        (BaseEntity.where_ (BaseEntity.init ("account") ("account"))
          ("statecode") ("eq") (JsVal.num 0)).1 =
      "<fetch><entity name=\"account\"><filter type=\"and\"><condition attribute=\"statecode\" operator=\"eq\" value=\"0\"/></filter></entity></fetch>" := by
  refine ⟨?_, ?_, ?_⟩
  · intro condition h
    have hcond : ¬ (condition.value ≠ JsVal.undef ∧ condition.value ≠ JsVal.null) := by
      rcases h with h | h <;> simp [h]
    simp only [buildCondition, if_neg hcond, String.append_assoc]
    rfl
  · intro condition h1 h2
    simp only [buildCondition, if_pos (And.intro h1 h2), String.append_assoc]
    rfl
  · rfl

/-- Witness for C3: a concrete null-check condition renders with no `value`
attribute. -/
theorem condition_value_emission_witness :
    buildCondition { attribute_ := "name", operator := "null", value := JsVal.undef } =
      "<condition attribute=\"" ++ escapeXml ("name") ++
      "\" operator=\"" ++ "null" ++ "\"/>" :=
  condition_value_emission.1
    { attribute_ := "name", operator := "null", value := JsVal.undef } (Or.inl rfl)

/-- **C7.** `groupBy` validates its argument but mutates nothing: the builder
state after the call is the state before it (so a later `build` renders the
same XML), the call succeeds exactly when the name is valid (non-empty and
not whitespace-only), and an invalid name yields the attribute
`ValidationError`. -/
theorem groupBy_no_effect (st : BaseEntity) (attribute_ : String) :
    (BaseEntity.groupBy st attribute_).1 = st ∧
    BaseEntity.build (BaseEntity.groupBy st attribute_).1 = BaseEntity.build st ∧
    ((BaseEntity.groupBy st attribute_).2 = none ↔ ¬ (attribute_ = "" ∨ jsTrim attribute_ = "")) ∧
    (attribute_ = "" ∨ jsTrim attribute_ = "" →
      (BaseEntity.groupBy st attribute_).2 =
        some (FetchError.validationError "Attribute name cannot be empty" "attribute")) := by
  by_cases h : attribute_ = "" ∨ jsTrim attribute_ = "" <;>
    simp [BaseEntity.groupBy, Validator.validateAttributeName, h]

/-- Witness for C7: at a whitespace-only name the call errors and the state
is unchanged. -/
theorem groupBy_no_effect_witness :
    (BaseEntity.groupBy (BaseEntity.init ("account") ("account")) (" ")).1 =
      BaseEntity.init ("account") ("account") ∧
    (BaseEntity.groupBy (BaseEntity.init ("account") ("account")) (" ")).2 =
      some (FetchError.validationError "Attribute name cannot be empty" "attribute") :=
  ⟨(groupBy_no_effect (BaseEntity.init ("account") ("account")) (" ")).1,
   (groupBy_no_effect (BaseEntity.init ("account") ("account")) (" ")).2.2.2
     (Or.inr (by decide))⟩

/-- **C8.** Range enforcement for `top` and `page`: `top(n)` fails exactly
when `n` is outside `[1, 5000]` and otherwise sets the field; `page(p, s)`
fails exactly when `p < 1` or `s` is outside `[1, 5000]` and otherwise sets
both `page` and `count`; the defaulted call is `page(p, 50)`. -/
theorem range_enforcement :
    (∀ (st : BaseEntity) (n : Int),
      (BaseEntity.top st n).2 = none ↔ 1 ≤ n ∧ n ≤ 5000) ∧
    (∀ (st : BaseEntity) (n : Int), 1 ≤ n → n ≤ 5000 →
      BaseEntity.top st n = ({ st with query := { st.query with top := some n } }, none)) ∧
    (∀ (st : BaseEntity) (n : Int), n < 1 ∨ n > 5000 →
      BaseEntity.top st n =
        (st, some (FetchError.validationError "Top value must be between 1 and 5000" "top"))) ∧
    (∀ (st : BaseEntity) (p s : Int),
      (BaseEntity.page st p s).2 = none ↔ 1 ≤ p ∧ 1 ≤ s ∧ s ≤ 5000) ∧
    (∀ (st : BaseEntity) (p s : Int), 1 ≤ p → 1 ≤ s → s ≤ 5000 →
      BaseEntity.page st p s =
        ({ st with query := { st.query with page := some p, count := some s } }, none)) ∧
    (∀ (st : BaseEntity) (p s : Int), p < 1 ∨ s < 1 ∨ s > 5000 →
      (BaseEntity.page st p s).1 = st ∧ (BaseEntity.page st p s).2.isSome = true) ∧
    (∀ (st : BaseEntity) (p : Int), BaseEntity.pageDefault st p = BaseEntity.page st p 50) := by
  refine ⟨?_, ?_, ?_, ?_, ?_, ?_, fun st p => rfl⟩
  · intro st n
    by_cases h : n < 1 ∨ n > 5000 <;>
      simp [BaseEntity.top, Validator.validateTop, Validator.MIN_SIZE, Validator.MAX_SIZE, h] <;>
      omega
  · intro st n h1 h2
    have h : ¬ (n < 1 ∨ n > 5000) := by omega
    simp [BaseEntity.top, Validator.validateTop, Validator.MIN_SIZE, Validator.MAX_SIZE, h]
  · intro st n h
    simp [BaseEntity.top, Validator.validateTop, Validator.MIN_SIZE, Validator.MAX_SIZE, h]
  · intro st p s
    by_cases hp : p < 1
    · simp [BaseEntity.page, Validator.validatePagination, Validator.MIN_SIZE, Validator.MAX_SIZE,
        hp]
    · by_cases hs : s < 1 ∨ s > 5000 <;>
        simp [BaseEntity.page, Validator.validatePagination, Validator.MIN_SIZE,
          Validator.MAX_SIZE, hp, hs] <;>
        omega
  · intro st p s h1 h2 h3
    have hp : ¬ (p < 1) := by omega
    have hs : ¬ (s < 1 ∨ s > 5000) := by omega
    simp [BaseEntity.page, Validator.validatePagination, Validator.MIN_SIZE, Validator.MAX_SIZE,
      hp, hs]
  · intro st p s h
    by_cases hp : p < 1
    · simp [BaseEntity.page, Validator.validatePagination, Validator.MIN_SIZE, Validator.MAX_SIZE, hp]
    · have hs : s < 1 ∨ s > 5000 := by omega
      simp [BaseEntity.page, Validator.validatePagination, Validator.MIN_SIZE, Validator.MAX_SIZE,
        hp, hs]

/-- Witness for C8: `top(5000)` succeeds and sets the field; `top(5001)`
fails with the pre-call state kept; `page(1)` with the default size sets
`page = 1`, `count = 50`. -/
theorem range_enforcement_witness :
    BaseEntity.top (BaseEntity.init ("account") ("account")) 5000 =
      ({ BaseEntity.init ("account") ("account") with query :=
          { (BaseEntity.init ("account") ("account")).query with top := some 5000 } }, none) ∧
    BaseEntity.top (BaseEntity.init ("account") ("account")) 5001 =
      (BaseEntity.init ("account") ("account"),
        some (FetchError.validationError "Top value must be between 1 and 5000" "top")) ∧
    BaseEntity.page (BaseEntity.init ("account") ("account")) 1 50 =
      ({ BaseEntity.init ("account") ("account") with query :=
          { (BaseEntity.init ("account") ("account")).query with page := some 1, count := some 50 } },
        none) :=
  ⟨range_enforcement.2.1 (BaseEntity.init ("account") ("account")) 5000 (by decide) (by decide),
   range_enforcement.2.2.1 (BaseEntity.init ("account") ("account")) 5001 (by decide),
   range_enforcement.2.2.2.2.1 (BaseEntity.init ("account") ("account")) 1 50 (by decide)
     (by decide) (by decide)⟩

/-- Counterexample to C4 as stated: the fixed operator list has 29 pairwise
distinct members, every one of which `validateFilterOperator` accepts, so the
set of accepted operator strings does not have 28 members. -/
theorem operator_set_29_cex :
    Validator.validOperators.length = 29 ∧
    Validator.validOperators.Nodup ∧
    (∀ op ∈ Validator.validOperators, Validator.validateFilterOperator op = .ok op) ∧
    ¬ Validator.validOperators.length = 28 := by
  decide

/-- **C4 (amended: the fixed operator set has 29 members, not 28).**
Operator validation in `where`: with a valid attribute name, the call fails
with a `ValidationError` exactly when the operator is not in the fixed
29-value operator set, and otherwise appends the condition with the operator
unchanged; `validateFilterOperator` accepts exactly the members of that
29-element list and returns the input unchanged on success. -/
theorem where_operator_validation (st : BaseEntity) (attribute_ operator : String)
    (value : JsVal) (hattr : Validator.validateAttributeName attribute_ = .ok ()) :
    Validator.validOperators.length = 29 ∧
    (Validator.validateFilterOperator operator = .ok operator ↔
      operator ∈ Validator.validOperators) ∧
    (operator ∈ Validator.validOperators →
      BaseEntity.where_ st attribute_ operator value =
        ({ st with query := { st.query with filters := some (pushCondition (st.query.filters.getD (FilterNode.group "and" [])) { attribute_ := attribute_, operator := operator, value := value }) } }, none)) ∧
    (operator ∉ Validator.validOperators →
      BaseEntity.where_ st attribute_ operator value =
        (st, some (FetchError.validationError ("Invalid filter operator: " ++ operator) "operator"))) := by
  refine ⟨by decide, ?_, ?_, ?_⟩
  · by_cases h : operator ∈ Validator.validOperators <;>
      simp [Validator.validateFilterOperator, h]
  · intro h
    simp [BaseEntity.where_, hattr, Validator.validateFilterOperator, h]
  · intro h
    simp [BaseEntity.where_, hattr, Validator.validateFilterOperator, h]

/-- Witness for C4: a bogus operator is rejected with the model unchanged. -/
theorem where_operator_validation_witness :
    BaseEntity.where_ (BaseEntity.init ("account") ("account")) ("statecode") ("bogus")
        JsVal.undef =
      (BaseEntity.init ("account") ("account"),
        some (FetchError.validationError ("Invalid filter operator: " ++ "bogus") "operator")) :=
  (where_operator_validation (BaseEntity.init ("account") ("account")) ("statecode") ("bogus")
    JsVal.undef rfl).2.2.2 (by decide)

/-- **C10.** For every aggregate operation and alias, an absent or empty
attribute argument raises no error, skips the attribute-name validator, and
appends an `AggregateAttribute` named `entityName + "id"` — where
`entityName` is the subclass field, not the constructor argument stored in
`query.entity` (the statement holds for every state `st`, whatever its
`query.entity`). -/
theorem aggregate_default_name (st : BaseEntity) (attribute_ : Option String)
    (alias_ : Option String) (h : attribute_ = none ∨ attribute_ = some "") :
    BaseEntity.count st attribute_ alias_ = ({ st with query := { st.query with attributes := st.query.attributes ++ [{ name := st.entityName ++ "id", alias_ := alias_, aggregate := some "count" }] } }, none) ∧
    BaseEntity.sum st "" alias_ = ({ st with query := { st.query with attributes := st.query.attributes ++ [{ name := st.entityName ++ "id", alias_ := alias_, aggregate := some "sum" }] } }, none) ∧
    BaseEntity.avg st "" alias_ = ({ st with query := { st.query with attributes := st.query.attributes ++ [{ name := st.entityName ++ "id", alias_ := alias_, aggregate := some "avg" }] } }, none) ∧
    BaseEntity.min st "" alias_ = ({ st with query := { st.query with attributes := st.query.attributes ++ [{ name := st.entityName ++ "id", alias_ := alias_, aggregate := some "min" }] } }, none) ∧
    BaseEntity.max st "" alias_ = ({ st with query := { st.query with attributes := st.query.attributes ++ [{ name := st.entityName ++ "id", alias_ := alias_, aggregate := some "max" }] } }, none) := by
  have hf : jsTruthyStr attribute_ = false := by
    rcases h with h | h <;> simp [jsTruthyStr, h]
  refine ⟨?_, ?_, ?_, ?_, ?_⟩
  · simp [BaseEntity.count, BaseEntity.addAggregate, Validator.validateAggregateType, hf]
  · simp [BaseEntity.sum, BaseEntity.addAggregate, Validator.validateAggregateType, jsTruthyStr]
  · simp [BaseEntity.avg, BaseEntity.addAggregate, Validator.validateAggregateType, jsTruthyStr]
  · simp [BaseEntity.min, BaseEntity.addAggregate, Validator.validateAggregateType, jsTruthyStr]
  · simp [BaseEntity.max, BaseEntity.addAggregate, Validator.validateAggregateType, jsTruthyStr]

/-- Witness for C10: on a builder whose subclass field is `"account"` but
whose constructor argument was `"contact"`, `count()` succeeds and appends
`accountid` while `query.entity` stays `"contact"`. -/
theorem aggregate_default_name_witness :
    (BaseEntity.count (BaseEntity.init ("contact") ("account")) none none).2 = none ∧
    (BaseEntity.count (BaseEntity.init ("contact") ("account")) none none).1.query.attributes =
      [{ name := "accountid", alias_ := none, aggregate := some "count" }] ∧
    (BaseEntity.count (BaseEntity.init ("contact") ("account")) none none).1.query.entity =
      "contact" := by
  have h := (aggregate_default_name (BaseEntity.init ("contact") ("account")) none none
    (Or.inl rfl)).1
  refine ⟨?_, ?_, ?_⟩ <;> rw [h] <;> rfl

/-- **C2.** Per-call atomicity of the entity builder: whenever a builder
operation reports an error, the state after the call is exactly the state
before it — no attribute, condition, order, link or scalar field changed.
(In particular a `select` with any invalid name appends none of the names,
and an out-of-range `page` leaves `page` and `count` unset.) -/
theorem builder_atomicity :
    (∀ (st : BaseEntity) (attributes : List String) (e : FetchError),
      (BaseEntity.select st attributes).2 = some e → (BaseEntity.select st attributes).1 = st) ∧
    (∀ (st : BaseEntity) (a al : String) (e : FetchError),
      (BaseEntity.selectAs st a al).2 = some e → (BaseEntity.selectAs st a al).1 = st) ∧
    (∀ (st : BaseEntity) (agg : String) (a al : Option String) (e : FetchError),
      (BaseEntity.addAggregate st agg a al).2 = some e →
      (BaseEntity.addAggregate st agg a al).1 = st) ∧
    (∀ (st : BaseEntity) (a al : Option String) (e : FetchError),
      (BaseEntity.count st a al).2 = some e → (BaseEntity.count st a al).1 = st) ∧
    (∀ (st : BaseEntity) (a : String) (al : Option String) (e : FetchError),
      (BaseEntity.sum st a al).2 = some e → (BaseEntity.sum st a al).1 = st) ∧
    (∀ (st : BaseEntity) (a : String) (al : Option String) (e : FetchError),
      (BaseEntity.avg st a al).2 = some e → (BaseEntity.avg st a al).1 = st) ∧
    (∀ (st : BaseEntity) (a : String) (al : Option String) (e : FetchError),
      (BaseEntity.min st a al).2 = some e → (BaseEntity.min st a al).1 = st) ∧
    (∀ (st : BaseEntity) (a : String) (al : Option String) (e : FetchError),
      (BaseEntity.max st a al).2 = some e → (BaseEntity.max st a al).1 = st) ∧
    (∀ (st : BaseEntity) (a op : String) (v : JsVal) (e : FetchError),
      (BaseEntity.where_ st a op v).2 = some e → (BaseEntity.where_ st a op v).1 = st) ∧
    (∀ (st : BaseEntity) (a o : String) (e : FetchError),
      (BaseEntity.orderBy st a o).2 = some e → (BaseEntity.orderBy st a o).1 = st) ∧
    (∀ (st : BaseEntity) (n : Int) (e : FetchError),
      (BaseEntity.top st n).2 = some e → (BaseEntity.top st n).1 = st) ∧
    (∀ (st : BaseEntity) (p s : Int) (e : FetchError),
      (BaseEntity.page st p s).2 = some e → (BaseEntity.page st p s).1 = st) ∧
    (∀ (st : BaseEntity) (p : Int) (e : FetchError),
      (BaseEntity.pageDefault st p).2 = some e → (BaseEntity.pageDefault st p).1 = st) ∧
    (∀ (st : BaseEntity) (en fa ta : String) (al lt : Option String) (e : FetchError),
      (BaseEntity.join st en fa ta al lt).2 = some e →
      (BaseEntity.join st en fa ta al lt).1 = st) := by
  refine ⟨?_, ?_, ?_, ?_, ?_, ?_, ?_, ?_, ?_, ?_, ?_, ?_, ?_, ?_⟩
  · intro st attrs e
    simp only [BaseEntity.select]
    repeat' split
    all_goals simp
  · intro st a al e
    simp only [BaseEntity.selectAs]
    repeat' split
    all_goals simp
  · intro st agg a al e
    simp only [BaseEntity.addAggregate]
    repeat' split
    all_goals simp
  · intro st a al e
    simp only [BaseEntity.count, BaseEntity.addAggregate]
    repeat' split
    all_goals simp
  · intro st a al e
    simp only [BaseEntity.sum, BaseEntity.addAggregate]
    repeat' split
    all_goals simp
  · intro st a al e
    simp only [BaseEntity.avg, BaseEntity.addAggregate]
    repeat' split
    all_goals simp
  · intro st a al e
    simp only [BaseEntity.min, BaseEntity.addAggregate]
    repeat' split
    all_goals simp
  · intro st a al e
    simp only [BaseEntity.max, BaseEntity.addAggregate]
    repeat' split
    all_goals simp
  · intro st a op v e
    simp only [BaseEntity.where_]
    repeat' split
    all_goals simp
  · intro st a o e
    simp only [BaseEntity.orderBy]
    repeat' split
    all_goals simp
  · intro st n e
    simp only [BaseEntity.top]
    repeat' split
    all_goals simp
  · intro st p s e
    simp only [BaseEntity.page]
    repeat' split
    all_goals simp
  · intro st p e
    simp only [BaseEntity.pageDefault, BaseEntity.page]
    repeat' split
    all_goals simp
  · intro st en fa ta al lt e
    simp only [BaseEntity.join]
    repeat' split
    all_goals simp

/-- Witness for C2: a variadic `select` whose second name is invalid appends
nothing, and an out-of-range `page` leaves `page` and `count` unset. -/
theorem builder_atomicity_witness :
    (BaseEntity.select (BaseEntity.init ("account") ("account")) ["name", " "]).1 =
      BaseEntity.init ("account") ("account") ∧
    (BaseEntity.page (BaseEntity.init ("account") ("account")) 1 5001).1 =
      BaseEntity.init ("account") ("account") :=
  ⟨builder_atomicity.1 (BaseEntity.init ("account") ("account")) ["name", " "]
      (FetchError.validationError "Attribute name cannot be empty" "attribute") (by decide),
   builder_atomicity.2.2.2.2.2.2.2.2.2.2.2.1 (BaseEntity.init ("account") ("account")) 1 5001
      (FetchError.validationError "Page count must be between 1 and 5000" "count") (by decide)⟩

/-- Counterexample to C1 as stated: rendering a query whose root entity name
is `a&b` emits the name verbatim, not escaped — the output differs from the
text obtained by inserting the escaped name. -/
theorem entityName_unescaped_cex :
    BaseEntity.build (BaseEntity.init ("a&b") ("a&b")) =
      "<fetch><entity name=\"a&b\"></entity></fetch>" ∧
    escapeXml ("a&b") = "a&amp;b" ∧
    ("<fetch><entity name=\"a&b\"></entity></fetch>" : String) ≠
      "<fetch><entity name=\"a&amp;b\"></entity></fetch>" := by
  refine ⟨rfl, rfl, by decide⟩

/-- **C1 (amended: every listed string field except the root entity name is
escaped; the root entity name is inserted verbatim).** The renderer applies
`escapeXml` to attribute names, aliases, condition attribute names,
stringified condition values, order attribute names and link-entity
name/from/to/alias — but `build` interpolates the root entity name with no
escaping. -/
theorem escaping_per_field :
    (∀ name : String, buildAttribute1 { name := name, alias_ := none, aggregate := none } =
      "<attribute name=\"" ++ escapeXml name ++ "\"/>") ∧
    (∀ name alias_ : String, alias_ ≠ "" →
      buildAttribute1 { name := name, alias_ := some alias_, aggregate := none } =
        "<attribute name=\"" ++ escapeXml name ++ "\" alias=\"" ++ escapeXml alias_ ++ "\"/>") ∧
    (∀ c : FilterCondition, c.value ≠ JsVal.undef → c.value ≠ JsVal.null →
      buildCondition c =
        "<condition attribute=\"" ++ escapeXml c.attribute_ ++ "\" operator=\"" ++ c.operator ++
        "\" value=\"" ++ escapeXml c.value.toText ++ "\"/>") ∧
    (∀ o : OrderBy, buildOrder1 o =
      "<order attribute=\"" ++ escapeXml o.attribute_ ++ "\" descending=\"" ++
      (if o.order = "desc" then "true" else "false") ++ "\"/>") ∧
    (∀ name from_ to_ : String,
      buildLinkEntity (.mk name from_ to_ none none [] none none) =
        "<link-entity name=\"" ++ escapeXml name ++ "\" from=\"" ++ escapeXml from_ ++
        "\" to=\"" ++ escapeXml to_ ++ "\"></link-entity>") ∧
    (∀ name from_ to_ al : String, al ≠ "" →
      buildLinkEntity (.mk name from_ to_ (some al) none [] none none) =
        "<link-entity name=\"" ++ escapeXml name ++ "\" from=\"" ++ escapeXml from_ ++
        "\" to=\"" ++ escapeXml to_ ++ "\" alias=\"" ++ escapeXml al ++ "\"></link-entity>") ∧
    (∀ entityName subclassEntityName : String,
      BaseEntity.build (BaseEntity.init entityName subclassEntityName) =
        "<fetch><entity name=\"" ++ entityName ++ "\"></entity></fetch>") := by
  refine ⟨?_, ?_, ?_, ?_, ?_, ?_, fun e c => build_init e c⟩
  · intro name
    simp only [buildAttribute1, jsTruthyStr, String.append_assoc]
    rfl
  · intro name alias_ h
    simp only [buildAttribute1, jsTruthyStr, Option.getD, String.append_assoc]
    simp [h, String.append_assoc]
    rfl
  · intro c h1 h2
    simp only [buildCondition, if_pos (And.intro h1 h2), String.append_assoc]
    rfl
  · intro o
    simp only [buildOrder1, String.append_assoc]
  · intro name from_ to_
    simp only [buildLinkEntity, jsTruthyStr, buildAttributes, String.append_assoc]
    rfl
  · intro name from_ to_ al h
    simp only [buildLinkEntity, jsTruthyStr, buildAttributes, Option.getD, String.append_assoc]
    simp [h, String.append_assoc]
    rfl

/-- Witness for C1 (amended): concrete escaped renderings from the
repository's own test expectations. -/
theorem escaping_per_field_witness :
    buildAttribute1 { name := "name<test>", alias_ := none, aggregate := none } =
      "<attribute name=\"" ++ escapeXml ("name<test>") ++ "\"/>" ∧
    buildCondition { attribute_ := "name", operator := "eq", value := JsVal.str "Test & Demo" } =
      "<condition attribute=\"" ++ escapeXml ("name") ++ "\" operator=\"" ++ "eq" ++
      "\" value=\"" ++ escapeXml ((JsVal.str "Test & Demo").toText) ++ "\"/>" :=
  ⟨escaping_per_field.1 ("name<test>"),
   escaping_per_field.2.2.1 { attribute_ := "name", operator := "eq", value := JsVal.str "Test & Demo" }
     (by decide) (by decide)⟩

/-- One Join Builder call decomposes into its separate effects on the
attribute list and the filter tree; every other field of the link is
untouched. -/
theorem applyJoinOp_decomp (link : LinkEntity) (op : JoinOp) :
    applyJoinOp link op =
      link.withAttrsFilters (attrEffect link.attributes op) (filterEffect link.filters op) := by
  rcases link with ⟨n, f, t, al, lt, attrs, fil, ls⟩
  cases op with
  | select names =>
    cases hm : mapSelect names <;>
      simp [applyJoinOp, JoinBuilder.select, attrEffect, filterEffect, hm,
        LinkEntity.withAttrsFilters, LinkEntity.attributes, LinkEntity.filters]
  | selectAs a al2 =>
    cases h1 : Validator.validateAttributeName a <;>
      cases h2 : Validator.validateAttributeName al2 <;>
        simp [applyJoinOp, JoinBuilder.selectAs, attrEffect, filterEffect, h1, h2,
          LinkEntity.withAttrsFilters, LinkEntity.attributes, LinkEntity.filters]
  | whereC a op2 v =>
    cases h1 : Validator.validateAttributeName a <;>
      cases h2 : Validator.validateFilterOperator op2 <;>
        simp [applyJoinOp, JoinBuilder.where_, attrEffect, filterEffect, h1, h2,
          LinkEntity.withAttrsFilters, LinkEntity.attributes, LinkEntity.filters]

/-- A whole call sequence decomposes the same way. -/
theorem applyJoinOps_decomp (ops : List JoinOp) : ∀ link : LinkEntity,
    applyJoinOps link ops =
      link.withAttrsFilters (applyAttrOps link.attributes ops)
        (applyFilterOps link.filters ops) := by
  induction ops with
  | nil =>
    intro link
    rcases link with ⟨n, f, t, al, lt, attrs, fil, ls⟩
    rfl
  | cons op ops ih =>
    intro link
    show applyJoinOps (applyJoinOp link op) ops = _
    rw [ih (applyJoinOp link op), applyJoinOp_decomp]
    rcases link with ⟨n, f, t, al, lt, attrs, fil, ls⟩
    rfl

/-- The attribute list after a call sequence depends only on the
attribute-adding calls, in their order. -/
theorem applyAttrOps_filter (ops : List JoinOp) : ∀ attrs : List Attribute,
    applyAttrOps attrs (ops.filter (fun op => op.isAttrOp)) = applyAttrOps attrs ops := by
  induction ops with
  | nil => intro attrs; rfl
  | cons op ops ih =>
    intro attrs
    cases op <;> simp [List.filter, JoinOp.isAttrOp, applyAttrOps, attrEffect, ih] <;>
      exact ih _

/-- The filter tree after a call sequence depends only on the `where` calls,
in their order. -/
theorem applyFilterOps_filter (ops : List JoinOp) : ∀ fil : Option FilterNode,
    applyFilterOps fil (ops.filter (fun op => !op.isAttrOp)) = applyFilterOps fil ops := by
  induction ops with
  | nil => intro fil; rfl
  | cons op ops ih =>
    intro fil
    cases op <;> simp [List.filter, JoinOp.isAttrOp, applyFilterOps, filterEffect, ih] <;>
      exact ih _

/-- A rendered link decomposes into the fixed structural order: opening tag,
own attributes, filter section, nested-link section, closing tag. -/
theorem buildLinkEntity_decomp (link : LinkEntity) :
    buildLinkEntity link =
      linkOpenTag link ++ buildAttributes link.attributes ++ optFilterXml link.filters ++
      optLinksXml link.links ++ "</link-entity>" := by
  rcases link with ⟨n, f, t, al, lt, attrs, fil, ls⟩
  cases fil <;> cases ls <;>
    simp [buildLinkEntity, linkOpenTag, optFilterXml, optLinksXml, LinkEntity.name,
      LinkEntity.from_, LinkEntity.to_, LinkEntity.alias_, LinkEntity.linkType,
      LinkEntity.attributes, LinkEntity.filters, LinkEntity.links, String.append_assoc]

/-- **C5.** Fixed category order in link rendering: the rendered link is the
opening tag, then all its own attributes (determined, in call order, solely
by the attribute-adding calls), then the filter tree (determined solely by
the `where` calls), then the nested links, regardless of how the calls were
interleaved — two call sequences with the same per-category subsequences
produce the same link state and the same XML. -/
theorem link_render_category_order (ops1 ops2 : List JoinOp) (link : LinkEntity)
    (hA : ops1.filter (fun op => op.isAttrOp) = ops2.filter (fun op => op.isAttrOp))
    (hW : ops1.filter (fun op => !op.isAttrOp) = ops2.filter (fun op => !op.isAttrOp)) :
    applyJoinOps link ops1 = applyJoinOps link ops2 ∧
    buildLinkEntity (applyJoinOps link ops1) =
      linkOpenTag link ++
      buildAttributes (applyAttrOps link.attributes (ops1.filter (fun op => op.isAttrOp))) ++
      optFilterXml (applyFilterOps link.filters (ops1.filter (fun op => !op.isAttrOp))) ++
      optLinksXml link.links ++ "</link-entity>" := by
  constructor
  · rw [applyJoinOps_decomp, applyJoinOps_decomp,
      ← applyAttrOps_filter ops1, ← applyFilterOps_filter ops1, hA, hW,
      applyAttrOps_filter, applyFilterOps_filter]
  · rw [applyJoinOps_decomp, buildLinkEntity_decomp,
      applyAttrOps_filter, applyFilterOps_filter]
    rcases link with ⟨n, f, t, al, lt, attrs, fil, ls⟩
    rfl

/-- Witness for C5: adding an attribute then a condition renders identically
to adding the condition then the attribute. -/
theorem link_render_category_order_witness :
    applyJoinOps (LinkEntity.mk ("contact") ("accountid") ("parentcustomerid") none none [] none none)
        [JoinOp.select ["firstname"], JoinOp.whereC ("statecode") ("eq") (JsVal.num 0)] =
      applyJoinOps (LinkEntity.mk ("contact") ("accountid") ("parentcustomerid") none none [] none none)
        [JoinOp.whereC ("statecode") ("eq") (JsVal.num 0), JoinOp.select ["firstname"]] :=
  (link_render_category_order
    [JoinOp.select ["firstname"], JoinOp.whereC ("statecode") ("eq") (JsVal.num 0)]
    [JoinOp.whereC ("statecode") ("eq") (JsVal.num 0), JoinOp.select ["firstname"]]
    (LinkEntity.mk ("contact") ("accountid") ("parentcustomerid") none none [] none none)
    rfl rfl).1
